import Mathlib

/-!
Verification of the SUMO instance-management core
(`muve/sumo_server/sumo/instances.py`, `manager.py`, `tcp.py`).

The Python classes are shallowly embedded as Lean structures; each method
becomes a pure function that takes the pre-state (and, for calls into the
external simulator library / OS, an explicit oracle describing whether the
external call succeeds or raises) and returns the post-state together with
an optional raised error.  The filesystem is modelled as the list of paths
that exist.
-/

namespace SumoServer

/-- The exception kinds raised by the code (`ValueError`,
`SumoInstance.SumoStatusError`, `LocalTcpSumoInstance.SumoProcessError`,
`LocalTcpSumoInstance.SumoConnectionError`, `SumoTcpConnection.SumoSocketError`,
`LocalLibSumoInstance.SumoLibError`, `SumoInstanceManager.SumoExecutableNotFound`,
`NotImplementedError`), each carrying its message. -/
inductive SumoError where
  | valueError (msg : String)
  | statusError (msg : String)
  | processError (msg : String)
  | connectionError (msg : String)
  | socketError (msg : String)
  | libError (msg : String)
  | executableNotFound (msg : String)
  | notImplementedError
  deriving DecidableEq, Repr

/-- Outcome of a call into the `libsumo` module: either it returns normally
or it raises a `TraCIException` with the given message. -/
inductive LibResult where
  | ok
  | traci (msg : String)
  deriving DecidableEq, Repr

/-- Outcome of `subprocess.Popen`: either the process is created or a
`SubprocessError` with the given message is raised. -/
inductive SpawnResult where
  | ok
  | subprocessError (msg : String)
  deriving DecidableEq, Repr

/-- Outcome of `socket.socket.connect`: either it connects or an `OSError`
with the given message is raised. -/
inductive SockResult where
  | ok
  | osError (msg : String)
  deriving DecidableEq, Repr

/-- The filesystem, as the list of paths that exist (`pathlib.Path.exists`). -/
abbrev FileSystem := List String

/-- `tcp.SumoTcpConnection`: an address (host, port) and a socket which is
created unconnected at construction time; `connect` flips `connected`. -/
structure SumoTcpConnection where
  host : String
  port : Nat
  connected : Bool
  deriving DecidableEq, Repr

/-- `SumoTcpConnection.__init__`: stores the address and creates an
unconnected socket; performs no I/O. -/
def SumoTcpConnection.init (host : String) (port : Nat) : SumoTcpConnection :=
  ⟨host, port, false⟩

/-- `SumoTcpConnection.connect`: attempts the TCP connect; on `OSError` it
raises `SumoSocketError` wrapping the cause (socket left unconnected). -/
def SumoTcpConnection.connect (c : SumoTcpConnection) (res : SockResult) :
    SumoTcpConnection × Option SumoError :=
  match res with
  | .ok => ({ c with connected := true }, none)
  | .osError e => (c, some (.socketError e))

/-- A spawned SUMO subprocess (`subprocess.Popen` handle), identified by the
argument list it was spawned with. -/
structure SumoProcess where
  args : List String
  deriving DecidableEq, Repr

/-- `instances.LocalTcpSumoInstance`: configuration path, executable path,
port, started flag, and the optional process handle and connection which are
`None` until set by `start`. -/
structure LocalTcpSumoInstance where
  config : String
  executable : String
  port : Nat
  is_started : Bool
  process : Option SumoProcess
  connection : Option SumoTcpConnection
  deriving DecidableEq, Repr

namespace LocalTcpSumoInstance

/-- `LocalTcpSumoInstance.__init__` (via `SumoInstance.__init__`): the config
path is checked for existence first, then the executable path; a missing path
raises `ValueError` naming the role.  On success the instance starts out not
started, with no process and no connection. -/
def init (fs : FileSystem) (config executable : String) (port : Nat) :
    Except SumoError LocalTcpSumoInstance :=
  if config ∉ fs then
    .error (.valueError ("provided configuration file " ++ config ++ " does not exist"))
  else if executable ∉ fs then
    .error (.valueError ("provided executable file " ++ executable ++ " does not exist"))
  else
    .ok ⟨config, executable, port, false, none, none⟩

/-- The `process` property: raises `SumoProcessError` while `_process` is
`None`, otherwise returns the handle. -/
def processHandle (inst : LocalTcpSumoInstance) : Except SumoError SumoProcess :=
  match inst.process with
  | none => .error (.processError "SUMO process is not spawned")
  | some p => .ok p

/-- The `connection` property: raises `SumoConnectionError` while
`_connection` is `None`, otherwise returns the connection. -/
def connectionHandle (inst : LocalTcpSumoInstance) : Except SumoError SumoTcpConnection :=
  match inst.connection with
  | none => .error (.connectionError "SUMO connection is not established")
  | some c => .ok c

/-- The argument list `_spawn` passes to `subprocess.Popen`. -/
def spawnArgs (inst : LocalTcpSumoInstance) : List String :=
  [inst.executable, "-c", inst.config, "--remote-port", toString inst.port,
   "--num-clients", "1"]

/-- `LocalTcpSumoInstance.start`: raises `SumoStatusError` if already
started; otherwise `_spawn` (on `SubprocessError` raises `SumoProcessError`,
leaving `_process` unchanged), then `_connect`, which assigns the new
`SumoTcpConnection` to `_connection` BEFORE calling its `connect` (so a
failed connect leaves the unconnected connection assigned and propagates
`SumoSocketError`); only after both succeed is `_is_started` set. -/
def start (inst : LocalTcpSumoInstance) (spawnRes : SpawnResult) (connectRes : SockResult) :
    LocalTcpSumoInstance × Option SumoError :=
  if inst.is_started then
    (inst, some (.statusError "this SUMO instance is already started"))
  else
    match spawnRes with
    | .subprocessError e => (inst, some (.processError e))
    | .ok =>
      let inst1 := { inst with process := some ⟨spawnArgs inst⟩ }
      let conn0 := SumoTcpConnection.init "127.0.0.1" inst.port
      let inst2 := { inst1 with connection := some conn0 }
      match SumoTcpConnection.connect conn0 connectRes with
      | (_, some err) => (inst2, some err)
      | (conn1, none) =>
        ({ inst2 with connection := some conn1, is_started := true }, none)

/-- `LocalTcpSumoInstance.step`: always raises `NotImplementedError`. -/
def stepTcp (inst : LocalTcpSumoInstance) : LocalTcpSumoInstance × Option SumoError :=
  (inst, some .notImplementedError)

/-- `LocalTcpSumoInstance.stop`: always raises `NotImplementedError`. -/
def stopTcp (inst : LocalTcpSumoInstance) : LocalTcpSumoInstance × Option SumoError :=
  (inst, some .notImplementedError)

end LocalTcpSumoInstance

/-- `instances.LocalLibSumoInstance`: configuration path and started flag.
The class-level flag `_exists_started` is process-wide state and is threaded
separately as a `Bool` alongside each instance. -/
structure LocalLibSumoInstance where
  config : String
  is_started : Bool
  deriving DecidableEq, Repr

namespace LocalLibSumoInstance

/-- `LocalLibSumoInstance.__init__` (via `SumoInstance.__init__`): the config
path must exist, else `ValueError`; starts out not started. -/
def init (fs : FileSystem) (config : String) : Except SumoError LocalLibSumoInstance :=
  if config ∉ fs then
    .error (.valueError ("provided configuration file " ++ config ++ " does not exist"))
  else
    .ok ⟨config, false⟩

/-- `LocalLibSumoInstance.start`: raises `SumoStatusError` if this instance
is already started; raises `SumoLibError` if the process-wide
`_exists_started` flag is set; otherwise calls `libsumo.start`.  On a
`TraCIException` the instance flag is (re)set to false, the global flag is
left untouched, and `SumoLibError` wrapping the exception is raised; on
success both flags are set. -/
def start (inst : LocalLibSumoInstance) (g : Bool) (res : LibResult) :
    (LocalLibSumoInstance × Bool) × Option SumoError :=
  if inst.is_started then
    ((inst, g), some (.statusError "this SUMO instance is already started"))
  else if g then
    ((inst, g), some (.libError "`libsumo` only supports one simulation running at a time"))
  else
    match res with
    | .traci e => (({ inst with is_started := false }, g), some (.libError e))
    | .ok => (({ inst with is_started := true }, true), none)

/-- `LocalLibSumoInstance.stop`: raises `SumoStatusError` if not started;
otherwise calls `libsumo.close` inside a `try` whose `finally` clears both
the instance flag and the global flag on every exit path; a `TraCIException`
from the close is wrapped and raised as `SumoLibError` (after the flags are
cleared by the `finally`). -/
def stop (inst : LocalLibSumoInstance) (g : Bool) (closeRes : LibResult) :
    (LocalLibSumoInstance × Bool) × Option SumoError :=
  if inst.is_started then
    (({ inst with is_started := false }, false),
      match closeRes with
      | .ok => none
      | .traci e => some (.libError e))
  else
    ((inst, g), some (.statusError "this SUMO instance is not started"))

/-- `LocalLibSumoInstance.step`: raises `SumoStatusError` if not started;
otherwise calls `libsumo.simulation.step`.  On a `TraCIException` the
except-block first calls `self.stop()`: if that call itself raises, its
exception propagates and the `raise SumoLibError(e)` wrapping the original
step failure is never reached; only when the internal stop returns normally
is the original failure wrapped and raised. -/
def step (inst : LocalLibSumoInstance) (g : Bool) (stepRes closeRes : LibResult) :
    (LocalLibSumoInstance × Bool) × Option SumoError :=
  if inst.is_started then
    match stepRes with
    | .ok => ((inst, g), none)
    | .traci e =>
      match stop inst g closeRes with
      | (s, some err) => (s, some err)
      | (s, none) => (s, some (.libError e))
  else
    ((inst, g), some (.statusError "this SUMO instance is not started"))

end LocalLibSumoInstance

/-- An instance stored in the manager's map: either backend. -/
inductive ManagedInstance where
  | tcp (inst : LocalTcpSumoInstance)
  | lib (inst : LocalLibSumoInstance)
  deriving DecidableEq, Repr

namespace SumoInstanceManager

/-- `SumoInstanceManager._STARTING_PORT_NUMBER`. -/
def STARTING_PORT_NUMBER : Nat := 8800

/-- The manager's process-wide state: the name-to-instance map
(`_instances`, a dict with unique keys, kept in insertion order), the
monotonic port counter (`_current_port_number`), and the library backend's
process-wide `_exists_started` flag (threaded here because `destroy_instance`
calls `stop` on the stored instance). -/
structure MgrState where
  instances : List (String × ManagedInstance)
  current_port_number : Nat
  exists_started : Bool
  deriving DecidableEq, Repr

/-- The fresh manager state: empty map, counter seeded at 8800, no library
simulation active. -/
def initMgrState : MgrState :=
  ⟨[], STARTING_PORT_NUMBER, false⟩

/-- Dictionary lookup `_instances[name]` on the association list. -/
def lookupInst (name : String) : List (String × ManagedInstance) → Option ManagedInstance
  | [] => none
  | (k, v) :: rest => if k = name then some v else lookupInst name rest

/-- Dictionary removal `_instances.pop(name)` (the dict has unique keys, so
removing the first occurrence removes the entry). -/
def eraseInst (name : String) : List (String × ManagedInstance) → List (String × ManagedInstance)
  | [] => []
  | (k, v) :: rest => if k = name then rest else (k, v) :: eraseInst name rest

/-- `SumoInstanceManager._choose_port`: returns the current counter value and
increments the counter. -/
def choose_port (st : MgrState) : Nat × MgrState :=
  (st.current_port_number, { st with current_port_number := st.current_port_number + 1 })

/-- `SumoInstanceManager._create_instance`: checks the name-collision first
(raising `ValueError` if the name exists); only then runs the factory — a
factory failure propagates with nothing inserted; on success the instance is
inserted and returned. -/
def create_instance (st : MgrState) (name : String)
    (factory : Except SumoError ManagedInstance) :
    MgrState × Except SumoError ManagedInstance :=
  match lookupInst name st.instances with
  | some _ => (st, .error (.valueError ("SUMO instance " ++ name ++ " already exists")))
  | none =>
    match factory with
    | .error e => (st, .error e)
    | .ok inst => ({ st with instances := st.instances ++ [(name, inst)] }, .ok inst)

/-- `SumoInstanceManager._find_default_executable`: `whichRes` is the result
of `shutil.which("sumo")`; `None` raises `SumoExecutableNotFound`. -/
def find_default_executable (whichRes : Option String) : Except SumoError String :=
  match whichRes with
  | some command => .ok command
  | none => .error (.executableNotFound
      "could not find default SUMO executable path, ensure that the `sumo` command can be run from the shell")

/-- `SumoInstanceManager.create_local_tcp_instance`: resolves the executable
first when none is supplied (`if not executable:`), then allocates a port
when none is supplied (`if not port:` — note Python truthiness also treats a
supplied port 0 as unsupplied), and only then calls `_create_instance` with
the `LocalTcpSumoInstance` factory, so the collision check happens after the
executable resolution and the port allocation. -/
def create_local_tcp_instance (fs : FileSystem) (st : MgrState) (name config : String)
    (executable : Option String) (port : Option Nat) (whichRes : Option String) :
    MgrState × Except SumoError ManagedInstance :=
  let exeRes : Except SumoError String :=
    match executable with
    | some e => .ok e
    | none => find_default_executable whichRes
  match exeRes with
  | .error err => (st, .error err)
  | .ok exe =>
    let pst : Nat × MgrState :=
      match port with
      | none => choose_port st
      | some p => if p = 0 then choose_port st else (p, st)
    create_instance pst.2 name
      ((LocalTcpSumoInstance.init fs config exe pst.1).map ManagedInstance.tcp)

/-- `SumoInstanceManager.create_local_lib_instance`: calls `_create_instance`
with the `LocalLibSumoInstance` factory. -/
def create_local_lib_instance (fs : FileSystem) (st : MgrState) (name config : String) :
    MgrState × Except SumoError ManagedInstance :=
  create_instance st name ((LocalLibSumoInstance.init fs config).map ManagedInstance.lib)

/-- `SumoInstanceManager.get_instance`: raises `ValueError` when the name is
absent, otherwise returns the stored instance; never mutates anything. -/
def get_instance (st : MgrState) (name : String) : Except SumoError ManagedInstance :=
  match lookupInst name st.instances with
  | none => .error (.valueError ("SUMO instance " ++ name ++ " has not been created"))
  | some inst => .ok inst

/-- `stop()` on a stored instance, as invoked by `destroy_instance`: the TCP
backend always raises `NotImplementedError`; the library backend runs
`LocalLibSumoInstance.stop` against the process-wide flag (the stopped
instance object itself is already out of the map and is discarded). -/
def stopManaged (inst : ManagedInstance) (g : Bool) (closeRes : LibResult) :
    Bool × Option SumoError :=
  match inst with
  | .tcp _ => (g, some .notImplementedError)
  | .lib i => ((LocalLibSumoInstance.stop i g closeRes).1.2, (LocalLibSumoInstance.stop i g closeRes).2)

/-- `SumoInstanceManager.destroy_instance`: `pop` raises `ValueError` when
the name is absent (map untouched); otherwise the entry is removed by the
`pop` BEFORE `instance.stop()` runs, so the removal stands even when that
`stop` raises. -/
def destroy_instance (st : MgrState) (name : String) (closeRes : LibResult) :
    MgrState × Option SumoError :=
  match lookupInst name st.instances with
  | none => (st, some (.valueError ("SUMO instance " ++ name ++ " does not exist")))
  | some inst =>
    let st1 := { st with instances := eraseInst name st.instances }
    let r := stopManaged inst st.exists_started closeRes
    ({ st1 with exists_started := r.1 }, r.2)

/-- A registry operation, with the oracles its external calls need. -/
inductive MgrOp where
  | createTcp (name config : String) (executable : Option String) (port : Option Nat)
      (whichRes : Option String)
  | createLib (name config : String)
  | destroy (name : String) (closeRes : LibResult)
  | getOp (name : String)
  deriving DecidableEq, Repr

/-- The state transition of one registry operation. -/
def applyMgrOp (fs : FileSystem) (st : MgrState) (op : MgrOp) : MgrState :=
  match op with
  | .createTcp name config executable port whichRes =>
    (create_local_tcp_instance fs st name config executable port whichRes).1
  | .createLib name config => (create_local_lib_instance fs st name config).1
  | .destroy name closeRes => (destroy_instance st name closeRes).1
  | .getOp _ => st

/-- Run a sequence of registry operations. -/
def runMgr (fs : FileSystem) (st : MgrState) : List MgrOp → MgrState
  | [] => st
  | op :: ops => runMgr fs (applyMgrOp fs st op) ops

/-- Whether an operation invokes `_choose_port` (a TCP create whose
executable resolution succeeds and whose port argument is absent or 0). -/
def opAllocates : MgrOp → Bool
  | .createTcp _ _ executable port whichRes =>
    (executable.isSome || whichRes.isSome) && (port = none || port = some 0)
  | _ => false

/-- The ports handed out by `_choose_port` along a run, in order. -/
def allocTrace (fs : FileSystem) (st : MgrState) : List MgrOp → List Nat
  | [] => []
  | op :: ops =>
    (if opAllocates op then [st.current_port_number] else []) ++
      allocTrace fs (applyMgrOp fs st op) ops

/-- The number of `_choose_port` invocations a sequence of operations makes
(independent of the state and the filesystem). -/
def allocCount : List MgrOp → Nat
  | [] => 0
  | op :: ops => (if opAllocates op then 1 else 0) + allocCount ops

end SumoInstanceManager

/-! ### A system of library-backed instances

For the process-wide exclusivity invariant we track every
`LocalLibSumoInstance` object ever constructed (indexed by construction
order) together with the shared `_exists_started` flag, and let an arbitrary
sequence of construct/start/step/stop calls act on it. -/

/-- All live `LocalLibSumoInstance` objects plus the class-level
`_exists_started` flag. -/
structure LibSystem where
  instances : List LocalLibSumoInstance
  g : Bool
  deriving DecidableEq, Repr

/-- The state before any library-backed instance is constructed. -/
def initLibSystem : LibSystem := ⟨[], false⟩

/-- One call on the library backend: construct a new instance, or invoke
`start`/`step`/`stop` on the `i`-th constructed instance, with the oracles
for the `libsumo` calls involved. -/
inductive LibOp where
  | construct (config : String)
  | startOp (i : Nat) (res : LibResult)
  | stepOp (i : Nat) (stepRes closeRes : LibResult)
  | stopOp (i : Nat) (closeRes : LibResult)
  deriving DecidableEq, Repr

/-- The state transition of one library-backend call.  A failing
construction (`ValueError`) creates no object; a call naming an index with
no object is a no-op on the system. -/
def applyLibOp (fs : FileSystem) (s : LibSystem) (op : LibOp) : LibSystem :=
  match op with
  | .construct config =>
    match LocalLibSumoInstance.init fs config with
    | .ok inst => { s with instances := s.instances ++ [inst] }
    | .error _ => s
  | .startOp i res =>
    match s.instances[i]? with
    | none => s
    | some inst =>
      let r := LocalLibSumoInstance.start inst s.g res
      ⟨s.instances.set i r.1.1, r.1.2⟩
  | .stepOp i stepRes closeRes =>
    match s.instances[i]? with
    | none => s
    | some inst =>
      let r := LocalLibSumoInstance.step inst s.g stepRes closeRes
      ⟨s.instances.set i r.1.1, r.1.2⟩
  | .stopOp i closeRes =>
    match s.instances[i]? with
    | none => s
    | some inst =>
      let r := LocalLibSumoInstance.stop inst s.g closeRes
      ⟨s.instances.set i r.1.1, r.1.2⟩

/-- Run a sequence of library-backend calls. -/
def runLib (fs : FileSystem) (s : LibSystem) : List LibOp → LibSystem
  | [] => s
  | op :: ops => runLib fs (applyLibOp fs s op) ops

/-- The exclusivity invariant: no two distinct instance objects are started
at once, and a started instance forces the process-wide flag. -/
def LibInv (s : LibSystem) : Prop :=
  (∀ (i j : Nat) (a b : LocalLibSumoInstance),
    s.instances[i]? = some a → s.instances[j]? = some b →
    a.is_started = true → b.is_started = true → i = j) ∧
  (∀ (i : Nat) (a : LocalLibSumoInstance),
    s.instances[i]? = some a → a.is_started = true → s.g = true)

/-! ### List helper lemmas -/

lemma set_self_of_getElem? {α : Type} (l : List α) (i : Nat) (a : α)
    (h : l[i]? = some a) : l.set i a = l := by
  induction l generalizing i with
  | nil => simp at h
  | cons x xs ih =>
    cases i with
    | zero =>
      simp only [List.getElem?_cons_zero, Option.some.injEq] at h
      simp [h]
    | succ n =>
      simp only [List.getElem?_cons_succ] at h
      simp [ih n h]

lemma countP_le_one_of_uniq {α : Type} (p : α → Bool) (l : List α)
    (h : ∀ (i j : Nat) (a b : α), l[i]? = some a → l[j]? = some b →
      p a = true → p b = true → i = j) :
    l.countP p ≤ 1 := by
  induction l with
  | nil => simp [List.countP_nil]
  | cons x xs ih =>
    by_cases hx : p x = true
    · have hzero : xs.countP p = 0 := by
        rw [List.countP_eq_zero]
        intro a ha hpa
        obtain ⟨n, hn⟩ := List.getElem?_of_mem ha
        have hcontra : n + 1 = 0 :=
          h (n + 1) 0 a x (by simpa using hn) (by simp) hpa hx
        omega
      rw [List.countP_cons, hzero]
      simp [hx]
    · have hshift : ∀ (i j : Nat) (a b : α), xs[i]? = some a → xs[j]? = some b →
          p a = true → p b = true → i = j := by
        intro i j a b hi hj hpa hpb
        have hsucc : i + 1 = j + 1 :=
          h (i + 1) (j + 1) a b (by simpa using hi) (by simpa using hj) hpa hpb
        omega
      rw [List.countP_cons]
      simp only [hx, if_false]
      exact Nat.le_trans (Nat.le_of_eq (Nat.add_zero _)) (ih hshift)

/-! ### Preservation of the exclusivity invariant -/

lemma libSystem_set_self (s : LibSystem) (i : Nat) (inst : LocalLibSumoInstance)
    (hget : s.instances[i]? = some inst) :
    (⟨s.instances.set i inst, s.g⟩ : LibSystem) = s := by
  cases s with
  | mk l g =>
    simp only [LibSystem.mk.injEq]
    exact ⟨set_self_of_getElem? l i inst hget, trivial⟩

lemma libInv_append_notStarted (s : LibSystem) (h : LibInv s) (c : String) :
    LibInv ⟨s.instances ++ [⟨c, false⟩], s.g⟩ := by
  obtain ⟨h1, h2⟩ := h
  have key : ∀ (k : Nat) (a : LocalLibSumoInstance),
      (s.instances ++ [⟨c, false⟩])[k]? = some a → a.is_started = true →
      s.instances[k]? = some a := by
    intro k a hk ha
    rcases Nat.lt_trichotomy k s.instances.length with hlt | heq | hgt
    · rwa [List.getElem?_append_left hlt] at hk
    · subst heq
      rw [List.getElem?_concat_length] at hk
      injection hk with hk
      rw [← hk] at ha
      exact Bool.noConfusion ha
    · have hnone : (s.instances ++ [⟨c, false⟩])[k]? = none :=
        List.getElem?_eq_none (by simp; omega)
      rw [hnone] at hk
      cases hk
  exact ⟨fun i j a b hi hj ha hb => h1 i j a b (key i a hi ha) (key j b hj hb) ha hb,
    fun i a hi ha => h2 i a (key i a hi ha) ha⟩

lemma notStarted_of_g_false (s : LibSystem) (h : LibInv s) (hg : s.g = false) :
    ∀ (k : Nat) (a : LocalLibSumoInstance),
      s.instances[k]? = some a → a.is_started = false := by
  intro k a hk
  cases hb : a.is_started with
  | false => rfl
  | true =>
    have hgt := h.2 k a hk hb
    rw [hg] at hgt
    exact Bool.noConfusion hgt

lemma libInv_set_started (s : LibSystem) (h : LibInv s) (hg : s.g = false)
    (i : Nat) (c : String) :
    LibInv ⟨s.instances.set i ⟨c, true⟩, true⟩ := by
  have hclear := notStarted_of_g_false s h hg
  refine ⟨?_, fun _ _ _ _ => rfl⟩
  intro i' j' a b hi hj ha hb
  have key : ∀ (k : Nat) (x : LocalLibSumoInstance),
      (s.instances.set i ⟨c, true⟩)[k]? = some x → x.is_started = true → k = i := by
    intro k x hk hx
    by_contra hki
    rw [List.getElem?_set_ne (Ne.symm hki)] at hk
    have hxf := hclear k x hk
    rw [hx] at hxf
    exact Bool.noConfusion hxf
  rw [key i' a hi ha, key j' b hj hb]

lemma libInv_set_cleared (s : LibSystem) (h : LibInv s) (i : Nat)
    (inst : LocalLibSumoInstance) (hget : s.instances[i]? = some inst)
    (hst : inst.is_started = true) (c : String) :
    LibInv ⟨s.instances.set i ⟨c, false⟩, false⟩ := by
  have key : ∀ (k : Nat) (x : LocalLibSumoInstance),
      (s.instances.set i ⟨c, false⟩)[k]? = some x → x.is_started = false := by
    intro k x hk
    by_cases hki : k = i
    · subst hki
      have hklen : k < s.instances.length := by
        by_contra hlen
        rw [List.getElem?_eq_none (Nat.le_of_not_lt hlen)] at hget
        cases hget
      rw [List.getElem?_set_self hklen] at hk
      injection hk with hk
      rw [← hk]
    · rw [List.getElem?_set_ne (Ne.symm hki)] at hk
      cases hx : x.is_started
      · rfl
      · exact absurd (h.1 k i x inst hk hget hx hst) hki
  refine ⟨?_, ?_⟩
  · intro i' j' a b hi hj ha hb
    rw [key i' a hi] at ha
    cases ha
  · intro i' a hi ha
    rw [key i' a hi] at ha
    cases ha

lemma libInv_applyLibOp (fs : FileSystem) (op : LibOp) (s : LibSystem)
    (h : LibInv s) : LibInv (applyLibOp fs s op) := by
  cases op with
  | construct config =>
    cases hinit : LocalLibSumoInstance.init fs config with
    | error e => simpa only [applyLibOp, hinit] using h
    | ok inst =>
      have hval : inst = ⟨config, false⟩ := by
        unfold LocalLibSumoInstance.init at hinit
        by_cases hc : config ∈ fs
        · simp only [hc, not_true_eq_false, if_false, Except.ok.injEq] at hinit
          exact hinit.symm
        · simp [hc] at hinit
      simp only [applyLibOp, hinit, hval]
      exact libInv_append_notStarted s h config
  | startOp i res =>
    cases hget : s.instances[i]? with
    | none => simpa only [applyLibOp, hget] using h
    | some inst =>
      simp only [applyLibOp, hget]
      cases hstart : inst.is_started with
      | true =>
        simp only [LocalLibSumoInstance.start, hstart, if_true]
        rw [libSystem_set_self s i inst hget]
        exact h
      | false =>
        cases hg : s.g with
        | true =>
          simp only [LocalLibSumoInstance.start, hstart, hg]
          simp only [Bool.false_eq_true, if_false, if_true]
          have hself := libSystem_set_self s i inst hget
          rw [hg] at hself
          rw [hself]
          exact h
        | false =>
          cases res with
          | traci e =>
            simp only [LocalLibSumoInstance.start, hstart, hg]
            simp only [Bool.false_eq_true, if_false]
            have hval : ({ inst with is_started := false } : LocalLibSumoInstance) = inst := by
              cases inst with
              | mk c st =>
                simp only [LocalLibSumoInstance.mk.injEq, true_and]
                simpa using hstart.symm
            have hself := libSystem_set_self s i inst hget
            rw [hg] at hself
            rw [hval, hself]
            exact h
          | ok =>
            simp only [LocalLibSumoInstance.start, hstart, hg]
            simp only [Bool.false_eq_true, if_false]
            exact libInv_set_started s h hg i inst.config
  | stepOp i stepRes closeRes =>
    cases hget : s.instances[i]? with
    | none => simpa only [applyLibOp, hget] using h
    | some inst =>
      simp only [applyLibOp, hget]
      cases hstart : inst.is_started with
      | false =>
        simp only [LocalLibSumoInstance.step, hstart]
        simp only [Bool.false_eq_true, if_false]
        rw [libSystem_set_self s i inst hget]
        exact h
      | true =>
        cases stepRes with
        | ok =>
          simp only [LocalLibSumoInstance.step, hstart, if_true]
          rw [libSystem_set_self s i inst hget]
          exact h
        | traci e =>
          simp only [LocalLibSumoInstance.step, LocalLibSumoInstance.stop, hstart, if_true]
          cases closeRes with
          | ok => exact libInv_set_cleared s h i inst hget hstart inst.config
          | traci e2 => exact libInv_set_cleared s h i inst hget hstart inst.config
  | stopOp i closeRes =>
    cases hget : s.instances[i]? with
    | none => simpa only [applyLibOp, hget] using h
    | some inst =>
      simp only [applyLibOp, hget]
      cases hstart : inst.is_started with
      | false =>
        simp only [LocalLibSumoInstance.stop, hstart]
        simp only [Bool.false_eq_true, if_false]
        rw [libSystem_set_self s i inst hget]
        exact h
      | true =>
        simp only [LocalLibSumoInstance.stop, hstart, if_true]
        exact libInv_set_cleared s h i inst hget hstart inst.config

lemma libInv_init : LibInv initLibSystem := by
  refine ⟨?_, ?_⟩ <;> intros <;> simp_all [initLibSystem]

lemma libInv_runLib (fs : FileSystem) (ops : List LibOp) (s : LibSystem)
    (h : LibInv s) : LibInv (runLib fs s ops) := by
  induction ops generalizing s with
  | nil => exact h
  | cons op ops ih => exact ih _ (libInv_applyLibOp fs op s h)

/-! ### Manager helper lemmas -/

open SumoInstanceManager

lemma tcp_init_ok_form (fs : FileSystem) (config executable : String) (port : Nat)
    (inst : LocalTcpSumoInstance)
    (h : LocalTcpSumoInstance.init fs config executable port = .ok inst) :
    inst = ⟨config, executable, port, false, none, none⟩ := by
  unfold LocalTcpSumoInstance.init at h
  by_cases h1 : config ∈ fs
  · by_cases h2 : executable ∈ fs
    · simp only [h1, h2, not_true_eq_false, if_false, Except.ok.injEq] at h
      exact h.symm
    · simp [h1, h2] at h
  · simp [h1] at h

lemma tcp_init_error_form (fs : FileSystem) (config executable : String) (port : Nat)
    (err : SumoError)
    (h : LocalTcpSumoInstance.init fs config executable port = .error err) :
    err = .valueError ("provided configuration file " ++ config ++ " does not exist") ∨
    err = .valueError ("provided executable file " ++ executable ++ " does not exist") := by
  unfold LocalTcpSumoInstance.init at h
  by_cases h1 : config ∈ fs
  · by_cases h2 : executable ∈ fs
    · simp [h1, h2] at h
    · simp only [h1, h2, not_true_eq_false, not_false_eq_true, if_true, if_false,
        Except.error.injEq] at h
      exact Or.inr h.symm
  · simp only [h1, not_false_eq_true, if_true, Except.error.injEq] at h
    exact Or.inl h.symm

lemma create_instance_state (st : MgrState) (name : String)
    (factory : Except SumoError ManagedInstance) :
    (create_instance st name factory).1.current_port_number = st.current_port_number ∧
    (create_instance st name factory).1.exists_started = st.exists_started := by
  unfold create_instance
  cases hl : lookupInst name st.instances with
  | some v => simp
  | none =>
    cases factory with
    | error e => simp
    | ok inst => simp

lemma create_instance_error (st : MgrState) (name : String)
    (factory : Except SumoError ManagedInstance) (err : SumoError)
    (h : (create_instance st name factory).2 = .error err) :
    (create_instance st name factory).1 = st ∧
    (err = .valueError ("SUMO instance " ++ name ++ " already exists") ∨
      factory = .error err) := by
  unfold create_instance at h ⊢
  revert h
  cases hl : lookupInst name st.instances with
  | some v =>
    intro h
    simp only [Except.error.injEq] at h
    exact ⟨rfl, Or.inl h.symm⟩
  | none =>
    intro h
    cases factory with
    | error e =>
      simp only [Except.error.injEq] at h
      exact ⟨rfl, Or.inr (by rw [h])⟩
    | ok inst => simp at h

lemma create_instance_ok (st : MgrState) (name : String)
    (factory : Except SumoError ManagedInstance) (inst : ManagedInstance)
    (h : (create_instance st name factory).2 = .ok inst) :
    factory = .ok inst ∧
    lookupInst name st.instances = none ∧
    (create_instance st name factory).1.instances = st.instances ++ [(name, inst)] := by
  unfold create_instance at h ⊢
  revert h
  cases hl : lookupInst name st.instances with
  | some v =>
    intro h
    simp at h
  | none =>
    intro h
    cases factory with
    | error e => simp at h
    | ok inst2 =>
      simp only [Except.ok.injEq] at h
      subst h
      exact ⟨rfl, rfl, rfl⟩

lemma create_local_tcp_counter (fs : FileSystem) (st : MgrState) (name config : String)
    (executable : Option String) (port : Option Nat) (whichRes : Option String) :
    (create_local_tcp_instance fs st name config executable port whichRes).1.current_port_number
      = st.current_port_number +
        (if opAllocates (.createTcp name config executable port whichRes)
          then 1 else 0) := by
  unfold create_local_tcp_instance opAllocates
  cases executable with
  | some e =>
    simp only [Option.isSome_some, Bool.true_or, Bool.true_and]
    cases port with
    | none => simp [choose_port, (create_instance_state _ _ _).1]
    | some p =>
      by_cases hp : p = 0
      · subst hp
        simp [choose_port, (create_instance_state _ _ _).1]
      · simp [hp, (create_instance_state _ _ _).1]
  | none =>
    cases whichRes with
    | none => simp [find_default_executable]
    | some w =>
      simp only [find_default_executable, Option.isSome_none, Option.isSome_some,
        Bool.false_or, Bool.true_and]
      cases port with
      | none => simp [choose_port, (create_instance_state _ _ _).1]
      | some p =>
        by_cases hp : p = 0
        · subst hp
          simp [choose_port, (create_instance_state _ _ _).1]
        · simp [hp, (create_instance_state _ _ _).1]

lemma applyMgrOp_counter (fs : FileSystem) (st : MgrState) (op : MgrOp) :
    (applyMgrOp fs st op).current_port_number =
      st.current_port_number + (if opAllocates op then 1 else 0) := by
  cases op with
  | createTcp name config executable port whichRes =>
    simp only [applyMgrOp]
    rw [create_local_tcp_counter]
  | createLib name config =>
    simp only [applyMgrOp, opAllocates, create_local_lib_instance, if_false]
    simp [(create_instance_state _ _ _).1]
  | destroy name closeRes =>
    simp only [applyMgrOp, opAllocates, if_false]
    unfold destroy_instance
    cases hl : lookupInst name st.instances with
    | none => simp
    | some inst => simp
  | getOp name => simp [applyMgrOp, opAllocates]

lemma range_map_add_succ (c n : Nat) :
    (List.range (n + 1)).map (fun k => c + k) =
      c :: (List.range n).map (fun k => (c + 1) + k) := by
  rw [List.range_succ_eq_map]
  simp only [List.map_cons, Nat.add_zero, List.map_map]
  congr 1
  apply List.map_congr_left
  intro k _
  simp only [Function.comp_apply]
  omega

lemma allocTrace_eq (fs : FileSystem) (ops : List MgrOp) (st : MgrState) :
    allocTrace fs st ops =
      (List.range (allocCount ops)).map (fun k => st.current_port_number + k) := by
  induction ops generalizing st with
  | nil => simp [allocTrace, allocCount]
  | cons op ops ih =>
    by_cases hop : opAllocates op
    · simp only [allocTrace, allocCount, hop, if_true]
      rw [ih, applyMgrOp_counter, hop, if_pos rfl]
      rw [Nat.add_comm 1 (allocCount ops), range_map_add_succ]
      rfl
    · simp only [allocTrace, allocCount, hop, if_false]
      rw [ih, applyMgrOp_counter]
      simp [hop]

lemma allocTrace_pairwise (fs : FileSystem) (ops : List MgrOp) (st : MgrState) :
    (allocTrace fs st ops).Pairwise (· < ·) := by
  rw [allocTrace_eq]
  refine List.Pairwise.map _ ?_ (List.pairwise_lt_range _)
  intro a b hab
  omega

lemma allocTrace_lower_bound (fs : FileSystem) (ops : List MgrOp) (st : MgrState) (q : Nat)
    (hq : q ∈ allocTrace fs st ops) : st.current_port_number ≤ q := by
  rw [allocTrace_eq] at hq
  obtain ⟨k, _, rfl⟩ := List.mem_map.mp hq
  omega

lemma lookupInst_eq_none_of_not_mem (name : String)
    (l : List (String × ManagedInstance)) (h : name ∉ l.map Prod.fst) :
    lookupInst name l = none := by
  induction l with
  | nil => rfl
  | cons kv rest ih =>
    obtain ⟨k, v⟩ := kv
    simp only [List.map_cons, List.mem_cons] at h
    push_neg at h
    simp only [lookupInst]
    rw [if_neg fun he => h.1 he.symm]
    exact ih h.2

lemma lookupInst_erase_self (name : String) (l : List (String × ManagedInstance))
    (hnd : (l.map Prod.fst).Nodup) :
    lookupInst name (eraseInst name l) = none := by
  induction l with
  | nil => rfl
  | cons kv rest ih =>
    obtain ⟨k, v⟩ := kv
    simp only [List.map_cons, List.nodup_cons] at hnd
    by_cases hk : k = name
    · subst hk
      simp only [eraseInst, if_pos rfl]
      exact lookupInst_eq_none_of_not_mem k rest hnd.1
    · simp only [eraseInst, if_neg hk, lookupInst]
      exact ih hnd.2

lemma lookupInst_append_right_self (name : String)
    (l : List (String × ManagedInstance)) (v : ManagedInstance)
    (h : lookupInst name l = none) :
    lookupInst name (l ++ [(name, v)]) = some v := by
  induction l with
  | nil => simp [lookupInst]
  | cons kv rest ih =>
    obtain ⟨k, w⟩ := kv
    simp only [lookupInst] at h ⊢
    by_cases hk : k = name
    · rw [if_pos hk] at h
      cases h
    · rw [if_neg hk] at h ⊢
      exact ih h

lemma create_instance_success (st : MgrState) (name : String) (inst : ManagedInstance)
    (hl : lookupInst name st.instances = none) :
    create_instance st name (.ok inst) =
      ({ st with instances := st.instances ++ [(name, inst)] }, .ok inst) := by
  unfold create_instance
  rw [hl]

lemma create_local_tcp_success (fs : FileSystem) (st : MgrState) (name config exe : String)
    (p : Nat) (hl : lookupInst name st.instances = none)
    (hcfg : config ∈ fs) (hexe : exe ∈ fs) (hp : p ≠ 0) :
    create_local_tcp_instance fs st name config (some exe) (some p) none =
      ({ st with instances :=
          st.instances ++ [(name, .tcp ⟨config, exe, p, false, none, none⟩)] },
        .ok (.tcp ⟨config, exe, p, false, none, none⟩)) := by
  have hinit : LocalTcpSumoInstance.init fs config exe p =
      .ok ⟨config, exe, p, false, none, none⟩ := by
    unfold LocalTcpSumoInstance.init
    simp [hcfg, hexe]
  unfold create_local_tcp_instance
  simp only [if_neg hp, hinit, Except.map]
  exact create_instance_success st name _ hl

lemma create_local_tcp_error_aux (fs : FileSystem) (st : MgrState) (name config exe : String)
    (p : Nat) (err : SumoError)
    (h : (create_instance st name
        ((LocalTcpSumoInstance.init fs config exe p).map ManagedInstance.tcp)).2 =
      .error err) :
    (∀ e : String, err ≠ .processError e) ∧
    (create_instance st name
        ((LocalTcpSumoInstance.init fs config exe p).map ManagedInstance.tcp)).1.instances =
      st.instances := by
  obtain ⟨hstate, hor⟩ := create_instance_error _ _ _ _ h
  refine ⟨?_, by rw [hstate]⟩
  intro e hne
  cases hor with
  | inl hcol =>
    rw [hcol] at hne
    simp at hne
  | inr hfac =>
    cases hinit : LocalTcpSumoInstance.init fs config exe p with
    | ok i =>
      rw [hinit] at hfac
      simp [Except.map] at hfac
    | error e2 =>
      rw [hinit] at hfac
      simp only [Except.map, Except.error.injEq] at hfac
      rcases tcp_init_error_form fs config exe p e2 hinit with h1 | h1 <;>
        · rw [← hfac, h1] at hne
          simp at hne

/-! ### The claims -/

/-- C8: with existing config and executable paths, constructing a
process-backed instance succeeds with the started flag initially false (and
no process or connection); a nonexistent config path fails with a
`ValueError` naming the configuration file, a nonexistent executable path
(with the config present) fails with a `ValueError` naming the executable
file; the config path is checked first. -/
theorem C8_tcp_construction (fs : FileSystem) (config executable : String) (port : Nat) :
    (config ∈ fs → executable ∈ fs →
      LocalTcpSumoInstance.init fs config executable port =
        .ok ⟨config, executable, port, false, none, none⟩) ∧
    (config ∉ fs →
      LocalTcpSumoInstance.init fs config executable port =
        .error (.valueError ("provided configuration file " ++ config ++ " does not exist"))) ∧
    (config ∈ fs → executable ∉ fs →
      LocalTcpSumoInstance.init fs config executable port =
        .error (.valueError ("provided executable file " ++ executable ++ " does not exist"))) := by
  unfold LocalTcpSumoInstance.init
  refine ⟨fun h1 h2 => ?_, fun h1 => ?_, fun h1 h2 => ?_⟩
  · simp [h1, h2]
  · simp [h1]
  · simp [h1, h2]

/-- Witness for C8 at concrete filesystems and paths. -/
theorem C8_tcp_construction_witness :
    LocalTcpSumoInstance.init ["cfg", "exe"] "cfg" "exe" 9 =
      .ok ⟨"cfg", "exe", 9, false, none, none⟩ ∧
    LocalTcpSumoInstance.init ["exe"] "cfg" "exe" 9 =
      .error (.valueError ("provided configuration file " ++ "cfg" ++ " does not exist")) ∧
    LocalTcpSumoInstance.init ["cfg"] "cfg" "exe" 9 =
      .error (.valueError ("provided executable file " ++ "exe" ++ " does not exist")) :=
  ⟨(C8_tcp_construction ["cfg", "exe"] "cfg" "exe" 9).1 (by decide) (by decide),
   (C8_tcp_construction ["exe"] "cfg" "exe" 9).2.1 (by decide),
   (C8_tcp_construction ["cfg"] "cfg" "exe" 9).2.2 (by decide) (by decide)⟩

/-- C9: on both backends, `start()` on an already-started instance raises
`SumoStatusError` and returns the instance (and, for the library backend,
the global flag) completely unchanged — including the process handle and
connection fields of the process-backed instance. -/
theorem C9_start_already_started (tcpInst : LocalTcpSumoInstance)
    (libInst : LocalLibSumoInstance) (g : Bool)
    (spawnRes : SpawnResult) (connectRes : SockResult) (res : LibResult)
    (h1 : tcpInst.is_started = true) (h2 : libInst.is_started = true) :
    LocalTcpSumoInstance.start tcpInst spawnRes connectRes =
      (tcpInst, some (.statusError "this SUMO instance is already started")) ∧
    LocalLibSumoInstance.start libInst g res =
      ((libInst, g), some (.statusError "this SUMO instance is already started")) := by
  constructor
  · unfold LocalTcpSumoInstance.start
    simp [h1]
  · unfold LocalLibSumoInstance.start
    simp [h2]

/-- Witness for C9 at concrete started instances. -/
theorem C9_start_already_started_witness :
    LocalTcpSumoInstance.start ⟨"c", "e", 1, true, none, none⟩ .ok .ok =
      (⟨"c", "e", 1, true, none, none⟩,
        some (.statusError "this SUMO instance is already started")) ∧
    LocalLibSumoInstance.start ⟨"c", true⟩ false .ok =
      ((⟨"c", true⟩, false),
        some (.statusError "this SUMO instance is already started")) :=
  C9_start_already_started ⟨"c", "e", 1, true, none, none⟩ ⟨"c", true⟩ false .ok .ok .ok rfl rfl

/-- C2 counterexample: when the internal `stop()` run from a failing
`step()` itself hits a library exception on close, the caller receives the
`SumoLibError` wrapping the CLOSE failure, not one wrapping the original
step failure — the `raise SumoLibError(e)` for the original error is never
reached. -/
theorem C2_counterexample :
    LocalLibSumoInstance.step ⟨"c", true⟩ true (.traci "step boom") (.traci "close boom") =
      ((⟨"c", false⟩, false), some (.libError "close boom")) ∧
    some (SumoError.libError "close boom") ≠ some (SumoError.libError "step boom") := by
  constructor
  · rfl
  · simp

/-- C2 amended: a library exception during `step()` on a started instance
always leaves the instance fully stopped (both flags cleared) and always
surfaces a `SumoLibError` — wrapping the original step failure when the
internal `stop()` returns normally, but wrapping the close failure instead
when the internal `stop()` itself raises. -/
theorem C2_step_failure_error (inst : LocalLibSumoInstance) (g : Bool)
    (e : String) (closeRes : LibResult) (h : inst.is_started = true) :
    LocalLibSumoInstance.step inst g (.traci e) closeRes =
      ((⟨inst.config, false⟩, false),
        some (.libError (match closeRes with | .ok => e | .traci e2 => e2))) := by
  unfold LocalLibSumoInstance.step LocalLibSumoInstance.stop
  cases closeRes with
  | ok => simp [h]
  | traci e2 => simp [h]

/-- Witness for C2's amended theorem at a concrete started instance. -/
theorem C2_step_failure_error_witness :
    LocalLibSumoInstance.step ⟨"c", true⟩ true (.traci "s") .ok =
      ((⟨"c", false⟩, false), some (.libError "s")) :=
  C2_step_failure_error ⟨"c", true⟩ true "s" .ok rfl

/-- C3 counterexample: after `start()` fails at the connect step (spawn
succeeded, socket connect raised), the connection accessor does NOT raise
`SumoConnectionError` — `_connect` assigned the connection object before
calling `connect`, so the accessor returns the unconnected connection. -/
theorem C3_counterexample :
    (LocalTcpSumoInstance.start ⟨"c", "e", 7, false, none, none⟩ .ok (.osError "refused")).2 =
      some (.socketError "refused") ∧
    (LocalTcpSumoInstance.start ⟨"c", "e", 7, false, none, none⟩ .ok
        (.osError "refused")).1.connectionHandle =
      .ok ⟨"127.0.0.1", 7, false⟩ ∧
    (LocalTcpSumoInstance.start ⟨"c", "e", 7, false, none, none⟩ .ok
        (.osError "refused")).1.connectionHandle ≠
      .error (.connectionError "SUMO connection is not established") := by
  refine ⟨rfl, rfl, ?_⟩
  simp [LocalTcpSumoInstance.start, LocalTcpSumoInstance.connectionHandle,
    SumoTcpConnection.connect, SumoTcpConnection.init]

/-- C3 amended: on a freshly constructed process-backed instance both
accessors raise (`SumoConnectionError` "not established",
`SumoProcessError` "not spawned"), and they still raise after a `start()`
that failed at the SPAWN step; but after a `start()` that failed at the
CONNECT step the process accessor and the connection accessor both return
values — the connection accessor yields the unconnected connection object,
because `_connect` assigns it before attempting the connect.  (Typing of
the accessors guarantees an error is raised rather than a null returned.) -/
theorem C3_accessors (fs : FileSystem) (config executable : String) (port : Nat)
    (inst : LocalTcpSumoInstance)
    (h : LocalTcpSumoInstance.init fs config executable port = .ok inst) :
    inst.connectionHandle = .error (.connectionError "SUMO connection is not established") ∧
    inst.processHandle = .error (.processError "SUMO process is not spawned") ∧
    (∀ (e : String) (connectRes : SockResult),
      (LocalTcpSumoInstance.start inst (.subprocessError e) connectRes).1.processHandle =
        .error (.processError "SUMO process is not spawned") ∧
      (LocalTcpSumoInstance.start inst (.subprocessError e) connectRes).1.connectionHandle =
        .error (.connectionError "SUMO connection is not established")) ∧
    (∀ e : String,
      (LocalTcpSumoInstance.start inst .ok (.osError e)).1.connectionHandle =
        .ok ⟨"127.0.0.1", inst.port, false⟩) := by
  have hval := tcp_init_ok_form fs config executable port inst h
  subst hval
  refine ⟨rfl, rfl, fun e connectRes => ⟨rfl, rfl⟩, fun e => rfl⟩

/-- Witness for C3's amended theorem at a concrete instance. -/
theorem C3_accessors_witness :
    (⟨"c", "e", 7, false, none, none⟩ : LocalTcpSumoInstance).connectionHandle =
      .error (.connectionError "SUMO connection is not established") ∧
    (LocalTcpSumoInstance.start ⟨"c", "e", 7, false, none, none⟩ .ok
        (.osError "x")).1.connectionHandle =
      .ok ⟨"127.0.0.1", 7, false⟩ :=
  ⟨(C3_accessors ["c", "e"] "c" "e" 7 ⟨"c", "e", 7, false, none, none⟩ rfl).1,
   (C3_accessors ["c", "e"] "c" "e" 7 ⟨"c", "e", 7, false, none, none⟩ rfl).2.2.2 "x"⟩

/-- C5: `stop()` on a started library-backed instance clears both the
instance flag and the process-wide flag on every exit path — returning
normally when the close succeeds and raising `SumoLibError` wrapping the
close failure otherwise — so a fresh `start()` immediately afterwards is
blocked by neither flag: it reaches the library call and succeeds when the
library call does. -/
theorem C5_stop_clears_flags (inst : LocalLibSumoInstance) (g : Bool)
    (closeRes : LibResult) (h : inst.is_started = true) :
    (LocalLibSumoInstance.stop inst g closeRes).1.1.is_started = false ∧
    (LocalLibSumoInstance.stop inst g closeRes).1.2 = false ∧
    (closeRes = .ok → (LocalLibSumoInstance.stop inst g closeRes).2 = none) ∧
    (∀ e : String, closeRes = .traci e →
      (LocalLibSumoInstance.stop inst g closeRes).2 = some (.libError e)) ∧
    (LocalLibSumoInstance.start (LocalLibSumoInstance.stop inst g closeRes).1.1
        (LocalLibSumoInstance.stop inst g closeRes).1.2 .ok =
      ((⟨inst.config, true⟩, true), none)) ∧
    (∀ e2 : String,
      LocalLibSumoInstance.start (LocalLibSumoInstance.stop inst g closeRes).1.1
          (LocalLibSumoInstance.stop inst g closeRes).1.2 (.traci e2) =
        ((⟨inst.config, false⟩, false), some (.libError e2))) := by
  unfold LocalLibSumoInstance.stop LocalLibSumoInstance.start
  cases closeRes with
  | ok => simp [h]
  | traci e => simp [h]

/-- Witness for C5 at a concrete started instance with a failing close. -/
theorem C5_stop_clears_flags_witness :
    (LocalLibSumoInstance.stop ⟨"c", true⟩ true (.traci "boom")).1.1.is_started = false ∧
    (LocalLibSumoInstance.stop ⟨"c", true⟩ true (.traci "boom")).1.2 = false ∧
    (LocalLibSumoInstance.stop ⟨"c", true⟩ true (.traci "boom")).2 =
      some (.libError "boom") ∧
    LocalLibSumoInstance.start (LocalLibSumoInstance.stop ⟨"c", true⟩ true (.traci "boom")).1.1
        (LocalLibSumoInstance.stop ⟨"c", true⟩ true (.traci "boom")).1.2 .ok =
      ((⟨"c", true⟩, true), none) :=
  ⟨(C5_stop_clears_flags ⟨"c", true⟩ true (.traci "boom") rfl).1,
   (C5_stop_clears_flags ⟨"c", true⟩ true (.traci "boom") rfl).2.1,
   (C5_stop_clears_flags ⟨"c", true⟩ true (.traci "boom") rfl).2.2.2.1 "boom" rfl,
   (C5_stop_clears_flags ⟨"c", true⟩ true (.traci "boom") rfl).2.2.2.2.1⟩

/-- C4 counterexample: creating a TCP-backed instance named "default" with
a valid config and an existing stub executable (one that would fail to
spawn) does NOT surface `ProcessError` from `create` — `create` performs no
spawn at all, so it returns the instance and the name IS registered. -/
theorem C4_counterexample :
    (create_local_tcp_instance ["valid.sumocfg", "stub-sumo"] initMgrState "default"
        "valid.sumocfg" (some "stub-sumo") none none).2 =
      .ok (.tcp ⟨"valid.sumocfg", "stub-sumo", 8800, false, none, none⟩) ∧
    lookupInst "default"
      (create_local_tcp_instance ["valid.sumocfg", "stub-sumo"] initMgrState "default"
        "valid.sumocfg" (some "stub-sumo") none none).1.instances =
      some (.tcp ⟨"valid.sumocfg", "stub-sumo", 8800, false, none, none⟩) := by
  constructor <;> rfl

/-- C4 amended: `create` never spawns a process, so a failing `create` never
surfaces a `ProcessError` (its failures are the name collision, executable
resolution, or path validation); and whenever `create` fails, the registry
map is unchanged, so the requested name is not left registered.  With an
existing (stub) executable path and a valid config, `create` simply
succeeds and registers the name; a `ProcessError` can only arise from the
later `start()`. -/
theorem C4_create_never_process_error (fs : FileSystem) (st : MgrState)
    (name config : String) (executable : Option String) (port : Option Nat)
    (whichRes : Option String) (err : SumoError)
    (h : (create_local_tcp_instance fs st name config executable port whichRes).2 =
      .error err) :
    (∀ e : String, err ≠ .processError e) ∧
    (create_local_tcp_instance fs st name config executable port whichRes).1.instances =
      st.instances := by
  unfold create_local_tcp_instance at h ⊢
  cases executable with
  | none =>
    cases whichRes with
    | none =>
      simp only [find_default_executable] at h ⊢
      simp only [Except.error.injEq] at h
      refine ⟨fun e hne => ?_, trivial⟩
      rw [← h] at hne
      simp at hne
    | some w =>
      simp only [find_default_executable] at h ⊢
      cases port with
      | none => exact create_local_tcp_error_aux fs _ name config w _ err h
      | some p =>
        by_cases hp : p = 0
        · subst hp
          simp only [if_pos rfl] at h ⊢
          exact create_local_tcp_error_aux fs _ name config w _ err h
        · simp only [if_neg hp] at h ⊢
          exact create_local_tcp_error_aux fs _ name config w _ err h
  | some exe =>
    cases port with
    | none => exact create_local_tcp_error_aux fs _ name config exe _ err h
    | some p =>
      by_cases hp : p = 0
      · subst hp
        simp only [if_pos rfl] at h ⊢
        exact create_local_tcp_error_aux fs _ name config exe _ err h
      · simp only [if_neg hp] at h ⊢
        exact create_local_tcp_error_aux fs _ name config exe _ err h

/-- Witness for C4's amended theorem at a concrete failing create (no
executable supplied and none resolvable). -/
theorem C4_create_never_process_error_witness :
    (SumoError.executableNotFound
        "could not find default SUMO executable path, ensure that the `sumo` command can be run from the shell" ≠
      SumoError.processError "x") ∧
    (create_local_tcp_instance [] initMgrState "default" "c" none none none).1.instances =
      initMgrState.instances :=
  ⟨(C4_create_never_process_error [] initMgrState "default" "c" none none none _ rfl).1 "x",
   (C4_create_never_process_error [] initMgrState "default" "c" none none none _ rfl).2⟩

/-- C6: `destroy` on an absent name raises the not-found `ValueError` and
leaves the whole state unchanged; on a present name the entry is removed
from the map (the `pop` precedes the `stop()` call, so removal stands even
when that `stop` raises), and a subsequent create with the same name
succeeds and registers the name again. -/
theorem C6_destroy (st : MgrState) (name : String) (closeRes : LibResult)
    (hnd : (st.instances.map Prod.fst).Nodup) :
    (lookupInst name st.instances = none →
      destroy_instance st name closeRes =
        (st, some (.valueError ("SUMO instance " ++ name ++ " does not exist")))) ∧
    (∀ inst : ManagedInstance, lookupInst name st.instances = some inst →
      lookupInst name (destroy_instance st name closeRes).1.instances = none ∧
      (∀ (fs : FileSystem) (config exe : String) (p : Nat),
        config ∈ fs → exe ∈ fs → p ≠ 0 →
        ((create_local_tcp_instance fs (destroy_instance st name closeRes).1 name
            config (some exe) (some p) none).2 =
          .ok (.tcp ⟨config, exe, p, false, none, none⟩)) ∧
        lookupInst name (create_local_tcp_instance fs (destroy_instance st name closeRes).1
            name config (some exe) (some p) none).1.instances =
          some (.tcp ⟨config, exe, p, false, none, none⟩))) := by
  constructor
  · intro hnone
    unfold destroy_instance
    rw [hnone]
  · intro inst hsome
    have hdst : (destroy_instance st name closeRes).1.instances =
        eraseInst name st.instances := by
      unfold destroy_instance
      rw [hsome]
    have hl : lookupInst name (destroy_instance st name closeRes).1.instances = none := by
      rw [hdst]
      exact lookupInst_erase_self name st.instances hnd
    refine ⟨hl, fun fs config exe p hcfg hexe hp => ?_⟩
    have hsucc := create_local_tcp_success fs (destroy_instance st name closeRes).1
      name config exe p hl hcfg hexe hp
    rw [hsucc]
    exact ⟨rfl, lookupInst_append_right_self name _ _ hl⟩

/-- Witness for C6 at concrete registry states, exercising both the absent
name and the destroy-then-recreate path (with a `stop` that raises). -/
theorem C6_destroy_witness :
    destroy_instance ⟨[("x", .lib ⟨"c", false⟩)], 8800, false⟩ "y" .ok =
      (⟨[("x", .lib ⟨"c", false⟩)], 8800, false⟩,
        some (.valueError ("SUMO instance " ++ "y" ++ " does not exist"))) ∧
    lookupInst "x"
      (destroy_instance ⟨[("x", .lib ⟨"c", true⟩)], 8800, true⟩ "x" (.traci "e")).1.instances =
      none ∧
    (create_local_tcp_instance ["c", "e"]
        (destroy_instance ⟨[("x", .lib ⟨"c", true⟩)], 8800, true⟩ "x" (.traci "e")).1 "x"
        "c" (some "e") (some 9) none).2 =
      .ok (.tcp ⟨"c", "e", 9, false, none, none⟩) :=
  ⟨(C6_destroy ⟨[("x", .lib ⟨"c", false⟩)], 8800, false⟩ "y" .ok (by decide)).1 rfl,
   ((C6_destroy ⟨[("x", .lib ⟨"c", true⟩)], 8800, true⟩ "x" (.traci "e") (by decide)).2
      (.lib ⟨"c", true⟩) rfl).1,
   (((C6_destroy ⟨[("x", .lib ⟨"c", true⟩)], 8800, true⟩ "x" (.traci "e") (by decide)).2
      (.lib ⟨"c", true⟩) rfl).2 ["c", "e"] "c" "e" 9 (by decide) (by decide) (by decide)).1⟩

/-- C10: a TCP create that fails on a name collision has already resolved
the executable and run the read-then-increment port allocation: the failed
call raises the already-exists `ValueError` yet leaves the counter advanced
by one (map unchanged), and the consumed port number is strictly below every
port handed out later; moreover with no executable supplied and none
resolvable, the failure is `SumoExecutableNotFound`, not the collision
error, showing resolution precedes the collision check. -/
theorem C10_collision_still_allocates (fs : FileSystem) (st : MgrState)
    (name config exe : String) (inst : ManagedInstance)
    (h : lookupInst name st.instances = some inst) :
    (create_local_tcp_instance fs st name config (some exe) none none).2 =
      .error (.valueError ("SUMO instance " ++ name ++ " already exists")) ∧
    (create_local_tcp_instance fs st name config (some exe) none none).1.current_port_number =
      st.current_port_number + 1 ∧
    (create_local_tcp_instance fs st name config (some exe) none none).1.instances =
      st.instances ∧
    (create_local_tcp_instance fs st name config none none none).2 =
      .error (.executableNotFound
        "could not find default SUMO executable path, ensure that the `sumo` command can be run from the shell") ∧
    (∀ (ops : List MgrOp) (q : Nat),
      q ∈ allocTrace fs (create_local_tcp_instance fs st name config (some exe) none none).1
        ops →
      st.current_port_number < q) := by
  have hcreate : create_local_tcp_instance fs st name config (some exe) none none =
      ({ st with current_port_number := st.current_port_number + 1 },
        .error (.valueError ("SUMO instance " ++ name ++ " already exists"))) := by
    unfold create_local_tcp_instance create_instance choose_port
    simp only [h]
  refine ⟨by rw [hcreate], by rw [hcreate], by rw [hcreate], ?_, ?_⟩
  · unfold create_local_tcp_instance find_default_executable
    rfl
  · intro ops q hq
    have hlb := allocTrace_lower_bound fs ops _ q hq
    rw [hcreate] at hlb
    simp only at hlb
    omega

/-- Witness for C10 at a concrete registry state with the name taken. -/
theorem C10_collision_still_allocates_witness :
    (create_local_tcp_instance ["c", "e"] ⟨[("x", .lib ⟨"c", false⟩)], 8800, false⟩ "x"
        "c" (some "e") none none).2 =
      .error (.valueError ("SUMO instance " ++ "x" ++ " already exists")) ∧
    (create_local_tcp_instance ["c", "e"] ⟨[("x", .lib ⟨"c", false⟩)], 8800, false⟩ "x"
        "c" (some "e") none none).1.current_port_number = 8801 :=
  ⟨(C10_collision_still_allocates ["c", "e"] ⟨[("x", .lib ⟨"c", false⟩)], 8800, false⟩
      "x" "c" "e" (.lib ⟨"c", false⟩) rfl).1,
   (C10_collision_still_allocates ["c", "e"] ⟨[("x", .lib ⟨"c", false⟩)], 8800, false⟩
      "x" "c" "e" (.lib ⟨"c", false⟩) rfl).2.1⟩

/-- C7: from the fresh counter seeded at 8800, the ports handed out by
`_choose_port` along any sequence of registry operations are exactly
8800, 8801, ... (one per allocating call), hence strictly increasing and
pairwise distinct — a port number is never handed out twice, destruction
included, because the counter is read-then-incremented and never reset; a
single TCP create with no port supplied receives the current counter value
as its instance port and advances the counter by exactly one. -/
theorem C7_port_allocation (fs : FileSystem) :
    (∀ ops : List MgrOp,
      allocTrace fs initMgrState ops =
        (List.range (allocCount ops)).map (fun k => 8800 + k)) ∧
    (∀ ops : List MgrOp,
      (allocTrace fs initMgrState ops).Pairwise (fun a b => a < b)) ∧
    (∀ (st : MgrState) (name config exe : String),
      (create_local_tcp_instance fs st name config (some exe) none none).1.current_port_number =
        st.current_port_number + 1 ∧
      (∀ inst : LocalTcpSumoInstance,
        (create_local_tcp_instance fs st name config (some exe) none none).2 =
          .ok (.tcp inst) →
        inst.port = st.current_port_number)) := by
  refine ⟨fun ops => ?_, fun ops => allocTrace_pairwise fs ops _,
    fun st name config exe => ⟨?_, ?_⟩⟩
  · rw [allocTrace_eq]
    rfl
  · rw [create_local_tcp_counter]
    rfl
  · intro inst h
    unfold create_local_tcp_instance at h
    obtain ⟨hfac, hlk, hins⟩ := create_instance_ok _ _ _ _ h
    cases hinit : LocalTcpSumoInstance.init fs config exe (choose_port st).1 with
    | error e =>
      rw [hinit] at hfac
      simp [Except.map] at hfac
    | ok i =>
      rw [hinit] at hfac
      simp only [Except.map, Except.ok.injEq, ManagedInstance.tcp.injEq] at hfac
      have hi := tcp_init_ok_form fs config exe (choose_port st).1 i hinit
      rw [← hfac, hi]
      exact rfl

/-- Witness for C7 at a concrete run of two allocating creates. -/
theorem C7_port_allocation_witness :
    allocTrace [] initMgrState
        [.createTcp "a" "c" (some "e") none none, .createTcp "b" "c" (some "e") none none] =
      [8800, 8801] ∧
    (create_local_tcp_instance [] initMgrState "a" "c" (some "e") none none).1.current_port_number =
      initMgrState.current_port_number + 1 := by
  constructor
  · rw [(C7_port_allocation []).1
      [.createTcp "a" "c" (some "e") none none, .createTcp "b" "c" (some "e") none none]]
    rfl
  · exact ((C7_port_allocation []).2.2 initMgrState "a" "c" "e").1

/-- C1: over every sequence of construct/start/step/stop calls on
library-backed instances, at most one instance object is in the started
state at any time; and whenever a different instance A is started, calling
`start()` on instance B raises the one-simulation `SumoLibError` and changes
nothing: B stays not started and the whole system state (A's flag and the
process-wide flag included) is exactly as before. -/
theorem C1_lib_exclusivity (fs : FileSystem) (ops : List LibOp) :
    ((runLib fs initLibSystem ops).instances.countP
        (fun inst => inst.is_started) ≤ 1) ∧
    (∀ (a b : Nat) (instA instB : LocalLibSumoInstance) (res : LibResult),
      a ≠ b →
      (runLib fs initLibSystem ops).instances[a]? = some instA →
      instA.is_started = true →
      (runLib fs initLibSystem ops).instances[b]? = some instB →
      instB.is_started = false ∧
      LocalLibSumoInstance.start instB (runLib fs initLibSystem ops).g res =
        ((instB, (runLib fs initLibSystem ops).g),
          some (.libError "`libsumo` only supports one simulation running at a time")) ∧
      applyLibOp fs (runLib fs initLibSystem ops) (.startOp b res) =
        runLib fs initLibSystem ops) := by
  have hinv := libInv_runLib fs ops initLibSystem libInv_init
  constructor
  · exact countP_le_one_of_uniq _ _ hinv.1
  · intro a b instA instB res hab hga hsa hgb
    have hg : (runLib fs initLibSystem ops).g = true := hinv.2 a instA hga hsa
    have hnb : instB.is_started = false := by
      cases hb : instB.is_started with
      | false => rfl
      | true => exact absurd (hinv.1 b a instB instA hgb hga hb hsa) (Ne.symm hab)
    have hstart : LocalLibSumoInstance.start instB (runLib fs initLibSystem ops).g res =
        ((instB, (runLib fs initLibSystem ops).g),
          some (.libError "`libsumo` only supports one simulation running at a time")) := by
      unfold LocalLibSumoInstance.start
      rw [hnb, hg]
      simp
    refine ⟨hnb, hstart, ?_⟩
    simp only [applyLibOp, hgb, hstart]
    exact libSystem_set_self _ b instB hgb

/-- Witness for C1 at a concrete run: two instances constructed, the first
started; starting the second fails with the one-simulation error and the
system is unchanged. -/
theorem C1_lib_exclusivity_witness :
    ((runLib ["c"] initLibSystem
        [.construct "c", .construct "c", .startOp 0 .ok]).instances.countP
        (fun inst => inst.is_started) ≤ 1) ∧
    (⟨"c", false⟩ : LocalLibSumoInstance).is_started = false ∧
    LocalLibSumoInstance.start ⟨"c", false⟩
        (runLib ["c"] initLibSystem [.construct "c", .construct "c", .startOp 0 .ok]).g .ok =
      ((⟨"c", false⟩,
          (runLib ["c"] initLibSystem [.construct "c", .construct "c", .startOp 0 .ok]).g),
        some (.libError "`libsumo` only supports one simulation running at a time")) ∧
    applyLibOp ["c"]
        (runLib ["c"] initLibSystem [.construct "c", .construct "c", .startOp 0 .ok])
        (.startOp 1 .ok) =
      runLib ["c"] initLibSystem [.construct "c", .construct "c", .startOp 0 .ok] :=
  ⟨(C1_lib_exclusivity ["c"] [.construct "c", .construct "c", .startOp 0 .ok]).1,
   (C1_lib_exclusivity ["c"] [.construct "c", .construct "c", .startOp 0 .ok]).2
     0 1 ⟨"c", true⟩ ⟨"c", false⟩ .ok (by decide) rfl rfl rfl⟩

end SumoServer
